import Mathlib

/-!
Verification of the framework/site-builder detection heuristic of
`src/api/app.py` (`detect_framework` and the `check_site` request handler).

The classifier is embedded shallowly: the values the Python code extracts
from the parsed page (`meta.get("content")` for each meta tag,
`script.get("src")` for each script tag, and `str(soup)` for the raw
serialized markup) become the fields of a `Document`, and the detection
logic of lines 66-149 of `app.py` becomes the pure function `classify`.
the Python `pat in s` substring test is `strContains`, `str.lower()` is
`lowerStr`, `str.strip()` is `trimStr`, and join-with-comma is `joinComma`,
each defined by structural recursion on the character list so that the
kernel can evaluate them on concrete inputs.
-/

namespace Cliseo

/-- Bool test that `p` is a prefix of `s`, on character lists. -/
def startsWithL : List Char → List Char → Bool
  | [], _ => true
  | _ :: _, [] => false
  | p :: ps, c :: cs => (p == c) && startsWithL ps cs

/-- Bool test that `pat` occurs as a contiguous substring of `s`
(the Python `pat in s` test on strings). -/
def containsL (s pat : List Char) : Bool :=
  match s with
  | [] => pat.isEmpty
  | c :: rest => startsWithL pat (c :: rest) || containsL rest pat

/-- The Python `pat in s` test for strings. -/
def strContains (s pat : String) : Bool :=
  containsL s.data pat.data

/-- The Python `s.lower()` case folding (ASCII, as used by the signatures). -/
def lowerStr (s : String) : String :=
  ⟨s.data.map Char.toLower⟩

/-- The whitespace characters stripped by the Python `str.strip()`. -/
def isPySpace (c : Char) : Bool :=
  c == ' ' || c == '\t' || c == '\n' || c == '\r' || c == '\x0b' || c == '\x0c'

/-- The Python `s.strip()` operation. -/
def trimStr (s : String) : String :=
  ⟨((s.data.dropWhile isPySpace).reverse.dropWhile isPySpace).reverse⟩

/-- The Python join of a list with the separator comma-space. -/
def joinComma : List String → String
  | [] => ""
  | [x] => x
  | x :: y :: xs => x ++ ", " ++ joinComma (y :: xs)

/-- The evidence `detect_framework` extracts from the fetched page:
the `content` attribute of every `<meta>` tag, the `src` attribute of
every `<script>` tag, and the full serialized markup `str(soup)`. -/
structure Document where
  metaContents : List String
  scriptSrcs : List String
  pageSource : String
deriving DecidableEq

/-- The mutable `frameworks` flag dictionary of `app.py` lines 69-78. -/
structure Flags where
  react : Bool
  vue : Bool
  angular : Bool
  nextjs : Bool
  wix : Bool
  squarespace : Bool
  shopify : Bool
  webflow : Bool
deriving DecidableEq

/-- All indicators start out `False` (lines 69-78). -/
def initFlags : Flags :=
  ⟨false, false, false, false, false, false, false, false⟩

/-- One iteration of the meta-tag loop (lines 82-91): lowercase the
`content` attribute and run the first-match-wins `if/elif` chain
(the `vue` branch is commented out in the source). -/
def metaStep (fl : Flags) (content : String) : Flags :=
  if strContains (lowerStr content) "react" then { fl with react := true }
  else if strContains (lowerStr content) "angular" then { fl with angular := true }
  else if strContains (lowerStr content) "next" then { fl with nextjs := true }
  else fl

/-- One iteration of the script-tag loop (lines 95-104): same chain on
the lowercased `src` attribute. -/
def scriptStep (fl : Flags) (src : String) : Flags :=
  if strContains (lowerStr src) "react" then { fl with react := true }
  else if strContains (lowerStr src) "angular" then { fl with angular := true }
  else if strContains (lowerStr src) "next" then { fl with nextjs := true }
  else fl

/-- Site-builder signature for Wix (line 118): checked against the
(unlowered) URL and the lowercased page source. -/
def wixCond (url ps : String) : Bool :=
  strContains url "wixsite.com" || strContains ps "static.parastorage.com" ||
    strContains ps "wix.com"

/-- Site-builder signature for Squarespace (line 120). -/
def squarespaceCond (ps : String) : Bool :=
  strContains ps "squarespace.com" || strContains ps "content=\"Squarespace\""

/-- Site-builder signature for Shopify (line 122). -/
def shopifyCond (ps : String) : Bool :=
  strContains ps "cdn.shopify.com" || strContains ps "content=\"Shopify\"" ||
    strContains ps "shopify"

/-- Site-builder signature for Webflow (line 124). -/
def webflowCond (ps : String) : Bool :=
  strContains ps "webflow.com" || strContains ps "content=\"Webflow\""

/-- Line 108: `data-reactroot` / `react-root` marker check. -/
def markReact (ps : String) (fl : Flags) : Flags :=
  if strContains ps "data-reactroot" || strContains ps "react-root" then
    { fl with react := true }
  else fl

/-- Line 112: `ng-` / `angular` marker check. -/
def markAngular (ps : String) (fl : Flags) : Flags :=
  if strContains ps "ng-" || strContains ps "angular" then
    { fl with angular := true }
  else fl

/-- Line 114: `__next` marker check. -/
def markNext (ps : String) (fl : Flags) : Flags :=
  if strContains ps "__next" then { fl with nextjs := true } else fl

/-- Line 118: Wix builder check. -/
def markWix (url ps : String) (fl : Flags) : Flags :=
  if wixCond url ps then { fl with wix := true } else fl

/-- Line 120: Squarespace builder check. -/
def markSquarespace (ps : String) (fl : Flags) : Flags :=
  if squarespaceCond ps then { fl with squarespace := true } else fl

/-- Line 122: Shopify builder check. -/
def markShopify (ps : String) (fl : Flags) : Flags :=
  if shopifyCond ps then { fl with shopify := true } else fl

/-- Line 124: Webflow builder check. -/
def markWebflow (ps : String) (fl : Flags) : Flags :=
  if webflowCond ps then { fl with webflow := true } else fl

/-- The independent marker and builder checks on the raw page source
(lines 106-125), in source order. -/
def markupChecks (url ps : String) (fl : Flags) : Flags :=
  markWebflow ps (markShopify ps (markSquarespace ps (markWix url ps
    (markNext ps (markAngular ps (markReact ps fl))))))

/-- The flag dictionary after all detection passes on a document:
meta loop, then script loop, then markup/builder checks, starting from
all-false flags. -/
def finalFlags (url : String) (doc : Document) : Flags :=
  markupChecks url (lowerStr doc.pageSource)
    (doc.scriptSrcs.foldl scriptStep (doc.metaContents.foldl metaStep initFlags))

/-- Dictionary lookup `frameworks[fw]` of the flag of a technology. -/
def flagOf (fl : Flags) : String → Bool
  | "React" => fl.react
  | "Vue" => fl.vue
  | "Angular" => fl.angular
  | "Next.js" => fl.nextjs
  | "Wix" => fl.wix
  | "Squarespace" => fl.squarespace
  | "Shopify" => fl.shopify
  | "Webflow" => fl.webflow
  | _ => false

/-- The list `site_builders` of line 128: Wix, Squarespace, Shopify, Webflow. -/
def siteBuilders : List String :=
  ["Wix", "Squarespace", "Shopify", "Webflow"]

/-- Insertion order of the `frameworks` dictionary (lines 69-78), which is
the iteration order of `frameworks.items()` in Python. -/
def frameworkNames : List String :=
  ["React", "Vue", "Angular", "Next.js", "Wix", "Squarespace", "Shopify", "Webflow"]

/-- `[fw for fw in site_builders if frameworks[fw]]` (line 129). -/
def detectedBuilders (fl : Flags) : List String :=
  siteBuilders.filter (flagOf fl)

/-- `[fw for fw, detected in frameworks.items() if detected]` (line 138). -/
def detectedAll (fl : Flags) : List String :=
  frameworkNames.filter (flagOf fl)

/-- The response dictionaries `detect_framework` produces: `compatible`
always present, exactly one of `frameworks` / `error` present. -/
structure DetectResult where
  compatible : Bool
  frameworks : Option (List String)
  error : Option String
deriving DecidableEq

/-- The classification phase of `detect_framework` (lines 66-149), applied
to the normalized URL and the parsed document. -/
def classify (url : String) (doc : Document) : DetectResult :=
  let fl := finalFlags url doc
  let builders := detectedBuilders fl
  if builders.isEmpty then
    let detected := detectedAll fl
    if detected.isEmpty then
      { compatible := true, frameworks := some ["Unknown"], error := none }
    else
      { compatible := true, frameworks := some detected, error := none }
  else
    { compatible := false, frameworks := none,
      error := some ("Framework not supported: " ++ joinComma builders) }

/-- Bool test that `pat` is a prefix of `s`, on strings. -/
def startsWithStr (s pat : String) : Bool :=
  startsWithL pat.data s.data

/-- Lines 33-34: prepend `https://` when the URL has no scheme. -/
def normalizeUrl (url : String) : String :=
  if startsWithStr url "http://" || startsWithStr url "https://" then url
  else "https://" ++ url

/-- Outcome of the `requests.get` call, matching the exception arms of
lines 37-64: each failure mode, or a successfully fetched document. -/
inductive FetchOutcome where
  | timeout : FetchOutcome
  | sslError : FetchOutcome
  | connError : FetchOutcome
  | httpError : String → FetchOutcome
  | reqError : String → FetchOutcome
  | success : Document → FetchOutcome
deriving DecidableEq

/-- `detect_framework` (lines 30-149), with the network abstracted as a
function from the normalized URL to a fetch outcome. -/
def detect_framework (fetch : String → FetchOutcome) (url : String) : DetectResult :=
  let url := normalizeUrl url
  match fetch url with
  | FetchOutcome.timeout =>
      { compatible := false, frameworks := none,
        error := some "Request timed out. Please check the URL and try again." }
  | FetchOutcome.sslError =>
      { compatible := false, frameworks := none,
        error := some "SSL certificate verification failed. The site might not be secure." }
  | FetchOutcome.connError =>
      { compatible := false, frameworks := none,
        error := some "Could not connect to the website. Please check the URL and try again." }
  | FetchOutcome.httpError m =>
      { compatible := false, frameworks := none, error := some ("HTTP Error: " ++ m) }
  | FetchOutcome.reqError m =>
      { compatible := false, frameworks := none,
        error := some ("Error accessing the website: " ++ m) }
  | FetchOutcome.success doc => classify url doc

/-- A JSON value as far as the handler inspects it: a string, or
anything else. -/
inductive JVal where
  | jstr : String → JVal
  | jnum : Int → JVal
  | jbool : Bool → JVal
  | jnull : JVal
deriving DecidableEq

/-- First binding of a key in a JSON object (the lookup `data["url"]`). -/
def lookupKey (data : List (String × JVal)) (k : String) : Option JVal :=
  match data with
  | [] => none
  | (k', v) :: rest => if k' == k then some v else lookupKey rest k

/-- The `check_site` handler (lines 163-193): `none` models a request
whose body parses to no JSON object, an empty list models `{}` (both are
falsy in Python); the result pairs the response dictionary with the HTTP
status code. The classification pipeline is a parameter so that its
non-invocation on malformed input is expressible. -/
def check_site (detect : String → DetectResult)
    (body : Option (List (String × JVal))) : DetectResult × Nat :=
  match body with
  | none =>
      ({ compatible := false, frameworks := none, error := some "No data provided" }, 400)
  | some data =>
      if data.isEmpty then
        ({ compatible := false, frameworks := none, error := some "No data provided" }, 400)
      else
        match lookupKey data "url" with
        | none =>
            ({ compatible := false, frameworks := none, error := some "URL is required" }, 400)
        | some (JVal.jstr s) =>
            if trimStr s == "" then
              ({ compatible := false, frameworks := none,
                 error := some "URL cannot be empty" }, 400)
            else
              (detect (trimStr s), 200)
        | some _ =>
            ({ compatible := false, frameworks := none,
               error := some "URL must be a string" }, 400)

/-- Disjunction of the four site-builder signature conditions of
lines 118-125, over the (normalized) URL and lowercased page source. -/
def builderSignature (url ps : String) : Bool :=
  wixCond url ps || squarespaceCond ps || shopifyCond ps || webflowCond ps

/-- A meta tag content that matches some rule of the `if/elif` chain of
lines 84-91. -/
def metaMatches (content : String) : Bool :=
  strContains (lowerStr content) "react" || strContains (lowerStr content) "angular" ||
    strContains (lowerStr content) "next"

/-- A script src that matches some rule of the chain of lines 97-104. -/
def srcMatches (src : String) : Bool :=
  strContains (lowerStr src) "react" || strContains (lowerStr src) "angular" ||
    strContains (lowerStr src) "next"

/-- A page source containing some framework marker of lines 108-115. -/
def markerMatches (ps : String) : Bool :=
  strContains ps "data-reactroot" || strContains ps "react-root" ||
    strContains ps "ng-" || strContains ps "angular" || strContains ps "__next"

/-- No meta, script, markup or URL evidence at all: no tag matches any
detection rule and no marker or builder signature occurs. -/
def noEvidence (url : String) (doc : Document) : Bool :=
  doc.metaContents.all (fun c => !(metaMatches c)) &&
    doc.scriptSrcs.all (fun s => !(srcMatches s)) &&
    !(markerMatches (lowerStr doc.pageSource)) &&
    !(builderSignature url (lowerStr doc.pageSource))

/-- The malformed-request conditions of `check_site` lines 166-190:
no JSON body, empty object, missing `url` key, non-string `url`, or a
`url` that is empty after stripping. -/
def malformedBody (body : Option (List (String × JVal))) : Bool :=
  match body with
  | none => true
  | some data =>
      data.isEmpty ||
        match lookupKey data "url" with
        | none => true
        | some (JVal.jstr s) => trimStr s == ""
        | some _ => true

/-- A document consisting of exactly one meta tag with content
`react angular` and nothing else: `pageSource` is the serialization
`str(soup)` that the BeautifulSoup `html.parser` produces for it. -/
def reactAngularDoc : Document :=
  { metaContents := ["react angular"], scriptSrcs := [],
    pageSource := "<meta content=\"react angular\"/>" }

/-- The empty document: no tags, empty markup. -/
def emptyDoc : Document :=
  { metaContents := [], scriptSrcs := [], pageSource := "" }

/-- A document with both framework evidence (React meta tag and
`data-reactroot` marker) and builder evidence (`cdn.shopify.com`). -/
def shopifyReactDoc : Document :=
  { metaContents := ["react"],
    scriptSrcs := ["https://cdn.shopify.com/x.js"],
    pageSource := "<div data-reactroot></div><script src=\"https://cdn.shopify.com/x.js\"></script>" }

/-- A document whose markup matches Webflow and Shopify signatures. -/
def builderPairDoc : Document :=
  { metaContents := [], scriptSrcs := [],
    pageSource := "<p>webflow.com and cdn.shopify.com</p>" }

/-- A document whose markup contains the `data-reactroot` marker only. -/
def reactDoc : Document :=
  { metaContents := [], scriptSrcs := [],
    pageSource := "<div data-reactroot=\"\"></div>" }

/-- A stub pipeline that reports every URL compatible. -/
def okStub : String → DetectResult :=
  fun _ => { compatible := true, frameworks := some ["Unknown"], error := none }

/-- A stub pipeline that reports every URL incompatible. -/
def errStub : String → DetectResult :=
  fun _ => { compatible := false, frameworks := none, error := some "x" }

theorem startsWithL_self (l : List Char) : startsWithL l l = true := by
  induction l with
  | nil => rfl
  | cons c cs ih => simp [startsWithL, ih]

theorem startsWithL_append (p l r : List Char) (h : startsWithL p l = true) :
    startsWithL p (l ++ r) = true := by
  induction p generalizing l with
  | nil => rfl
  | cons a as ih =>
    cases l with
    | nil => simp [startsWithL] at h
    | cons b bs =>
      simp [startsWithL] at h ⊢
      exact ⟨h.1, ih bs h.2⟩

theorem containsL_nil_pat (l : List Char) : containsL l [] = true := by
  cases l <;> rfl

theorem containsL_of_startsWithL (l p : List Char) (h : startsWithL p l = true) :
    containsL l p = true := by
  cases l with
  | nil =>
    cases p with
    | nil => rfl
    | cons a as => simp [startsWithL] at h
  | cons c cs => simp [containsL, h]

theorem containsL_append_right (l r p : List Char) (h : containsL r p = true) :
    containsL (l ++ r) p = true := by
  induction l with
  | nil => simpa using h
  | cons c cs ih => simp [containsL, ih]

theorem containsL_append_left (l r p : List Char) (h : containsL l p = true) :
    containsL (l ++ r) p = true := by
  induction l with
  | nil =>
    cases p with
    | nil => exact containsL_nil_pat r
    | cons a as => simp [containsL] at h
  | cons c cs ih =>
    simp only [containsL, Bool.or_eq_true] at h ⊢
    cases h with
    | inl h1 =>
      left
      have h2 := startsWithL_append p (c :: cs) r h1
      simpa using h2
    | inr h2 =>
      right
      exact ih h2

theorem containsL_self (l : List Char) : containsL l l = true :=
  containsL_of_startsWithL l l (startsWithL_self l)

theorem data_append (s t : String) : (s ++ t).data = s.data ++ t.data := by
  rcases s with ⟨ls⟩
  rcases t with ⟨lt⟩
  rfl

theorem strContains_append_right (s t pat : String) (h : strContains t pat = true) :
    strContains (s ++ t) pat = true := by
  unfold strContains at h ⊢
  rw [data_append]
  exact containsL_append_right _ _ _ h

theorem strContains_append_left (s t pat : String) (h : strContains s pat = true) :
    strContains (s ++ t) pat = true := by
  unfold strContains at h ⊢
  rw [data_append]
  exact containsL_append_left _ _ _ h

theorem strContains_self (s : String) : strContains s s = true :=
  containsL_self _

theorem strContains_joinComma (l : List String) (a : String) (h : a ∈ l) :
    strContains (joinComma l) a = true := by
  induction l with
  | nil => cases h
  | cons x xs ih =>
    cases xs with
    | nil =>
      have hx : a = x := by simpa using h
      subst hx
      simpa [joinComma] using strContains_self a
    | cons y ys =>
      rcases List.mem_cons.mp h with h1 | h2
      · subst h1
        show strContains (a ++ ", " ++ joinComma (y :: ys)) a = true
        exact strContains_append_left _ _ _ (strContains_append_left _ _ _ (strContains_self a))
      · show strContains (x ++ ", " ++ joinComma (y :: ys)) a = true
        exact strContains_append_right _ _ _ (ih h2)

theorem scriptStep_eq : scriptStep = metaStep := rfl

theorem metaStep_fields (fl : Flags) (c : String) :
    (metaStep fl c).vue = fl.vue ∧ (metaStep fl c).wix = fl.wix ∧
      (metaStep fl c).squarespace = fl.squarespace ∧
      (metaStep fl c).shopify = fl.shopify ∧ (metaStep fl c).webflow = fl.webflow := by
  unfold metaStep
  repeat' split
  all_goals simp

theorem metaStep_react_mono (fl : Flags) (c : String) (h : fl.react = true) :
    (metaStep fl c).react = true := by
  unfold metaStep
  repeat' split
  all_goals simp [h]

theorem foldl_metaStep_builders (l : List String) (fl : Flags) :
    (l.foldl metaStep fl).vue = fl.vue ∧ (l.foldl metaStep fl).wix = fl.wix ∧
      (l.foldl metaStep fl).squarespace = fl.squarespace ∧
      (l.foldl metaStep fl).shopify = fl.shopify ∧
      (l.foldl metaStep fl).webflow = fl.webflow := by
  induction l generalizing fl with
  | nil => exact ⟨rfl, rfl, rfl, rfl, rfl⟩
  | cons c cs ih =>
    have h1 := metaStep_fields fl c
    have h2 := ih (metaStep fl c)
    simp only [List.foldl_cons]
    exact ⟨h2.1.trans h1.1, h2.2.1.trans h1.2.1, h2.2.2.1.trans h1.2.2.1,
      h2.2.2.2.1.trans h1.2.2.2.1, h2.2.2.2.2.trans h1.2.2.2.2⟩

theorem foldl_metaStep_react_mono (l : List String) (fl : Flags) (h : fl.react = true) :
    (l.foldl metaStep fl).react = true := by
  induction l generalizing fl with
  | nil => exact h
  | cons c cs ih =>
    simp only [List.foldl_cons]
    exact ih _ (metaStep_react_mono fl c h)

theorem markReact_eq (ps : String) (fl : Flags) :
    markReact ps fl =
      { fl with react :=
          (strContains ps "data-reactroot" || strContains ps "react-root") || fl.react } := by
  rcases fl with ⟨r, v, a, n, w, sq, sh, wf⟩
  unfold markReact
  split <;> simp_all

theorem markAngular_eq (ps : String) (fl : Flags) :
    markAngular ps fl =
      { fl with angular := (strContains ps "ng-" || strContains ps "angular") || fl.angular } := by
  rcases fl with ⟨r, v, a, n, w, sq, sh, wf⟩
  unfold markAngular
  split <;> simp_all

theorem markNext_eq (ps : String) (fl : Flags) :
    markNext ps fl = { fl with nextjs := strContains ps "__next" || fl.nextjs } := by
  rcases fl with ⟨r, v, a, n, w, sq, sh, wf⟩
  unfold markNext
  split <;> simp_all

theorem markWix_eq (url ps : String) (fl : Flags) :
    markWix url ps fl = { fl with wix := wixCond url ps || fl.wix } := by
  rcases fl with ⟨r, v, a, n, w, sq, sh, wf⟩
  unfold markWix
  split <;> simp_all

theorem markSquarespace_eq (ps : String) (fl : Flags) :
    markSquarespace ps fl = { fl with squarespace := squarespaceCond ps || fl.squarespace } := by
  rcases fl with ⟨r, v, a, n, w, sq, sh, wf⟩
  unfold markSquarespace
  split <;> simp_all

theorem markShopify_eq (ps : String) (fl : Flags) :
    markShopify ps fl = { fl with shopify := shopifyCond ps || fl.shopify } := by
  rcases fl with ⟨r, v, a, n, w, sq, sh, wf⟩
  unfold markShopify
  split <;> simp_all

theorem markWebflow_eq (ps : String) (fl : Flags) :
    markWebflow ps fl = { fl with webflow := webflowCond ps || fl.webflow } := by
  rcases fl with ⟨r, v, a, n, w, sq, sh, wf⟩
  unfold markWebflow
  split <;> simp_all

theorem markupChecks_eq (url ps : String) (fl : Flags) :
    markupChecks url ps fl =
      { react := (strContains ps "data-reactroot" || strContains ps "react-root") || fl.react,
        vue := fl.vue,
        angular := (strContains ps "ng-" || strContains ps "angular") || fl.angular,
        nextjs := strContains ps "__next" || fl.nextjs,
        wix := wixCond url ps || fl.wix,
        squarespace := squarespaceCond ps || fl.squarespace,
        shopify := shopifyCond ps || fl.shopify,
        webflow := webflowCond ps || fl.webflow } := by
  rcases fl with ⟨r, v, a, n, w, sq, sh, wf⟩
  unfold markupChecks
  rw [markReact_eq, markAngular_eq, markNext_eq, markWix_eq, markSquarespace_eq,
    markShopify_eq, markWebflow_eq]

theorem finalFlags_builders (url : String) (doc : Document) :
    (finalFlags url doc).vue = false ∧
      (finalFlags url doc).wix = wixCond url (lowerStr doc.pageSource) ∧
      (finalFlags url doc).squarespace = squarespaceCond (lowerStr doc.pageSource) ∧
      (finalFlags url doc).shopify = shopifyCond (lowerStr doc.pageSource) ∧
      (finalFlags url doc).webflow = webflowCond (lowerStr doc.pageSource) := by
  have h1 := foldl_metaStep_builders doc.metaContents initFlags
  have h2 := foldl_metaStep_builders doc.scriptSrcs (doc.metaContents.foldl metaStep initFlags)
  unfold finalFlags
  rw [scriptStep_eq, markupChecks_eq]
  refine ⟨?_, ?_, ?_, ?_, ?_⟩ <;>
    simp only [h2.1, h2.2.1, h2.2.2.1, h2.2.2.2.1, h2.2.2.2.2,
      h1.1, h1.2.1, h1.2.2.1, h1.2.2.2.1, h1.2.2.2.2] <;>
    simp [initFlags]

theorem finalFlags_react_marker (url : String) (doc : Document)
    (h : (strContains (lowerStr doc.pageSource) "data-reactroot" ||
        strContains (lowerStr doc.pageSource) "react-root") = true) :
    (finalFlags url doc).react = true := by
  unfold finalFlags
  rw [markupChecks_eq]
  simp [h]

theorem finalFlags_react_mono (url : String) (doc : Document)
    (h : (doc.metaContents.foldl metaStep initFlags).react = true) :
    (finalFlags url doc).react = true := by
  unfold finalFlags
  rw [scriptStep_eq, markupChecks_eq]
  simp [foldl_metaStep_react_mono doc.scriptSrcs _ h]

theorem finalFlags_angular_marker (url : String) (doc : Document)
    (h : (strContains (lowerStr doc.pageSource) "ng-" ||
        strContains (lowerStr doc.pageSource) "angular") = true) :
    (finalFlags url doc).angular = true := by
  unfold finalFlags
  rw [markupChecks_eq]
  simp [h]

theorem detectedBuilders_eq (fl : Flags) :
    detectedBuilders fl =
      (if fl.wix then ["Wix"] else []) ++ (if fl.squarespace then ["Squarespace"] else []) ++
        (if fl.shopify then ["Shopify"] else []) ++ (if fl.webflow then ["Webflow"] else []) := by
  rcases fl with ⟨r, v, a, n, w, sq, sh, wf⟩
  cases w <;> cases sq <;> cases sh <;> cases wf <;> rfl

theorem detectedAll_eq (fl : Flags) :
    detectedAll fl =
      (if fl.react then ["React"] else []) ++ (if fl.vue then ["Vue"] else []) ++
        (if fl.angular then ["Angular"] else []) ++ (if fl.nextjs then ["Next.js"] else []) ++
        (if fl.wix then ["Wix"] else []) ++ (if fl.squarespace then ["Squarespace"] else []) ++
        (if fl.shopify then ["Shopify"] else []) ++ (if fl.webflow then ["Webflow"] else []) := by
  rcases fl with ⟨r, v, a, n, w, sq, sh, wf⟩
  cases r <;> cases v <;> cases a <;> cases n <;> cases w <;> cases sq <;> cases sh <;>
    cases wf <;> rfl

theorem classify_builder_branch (url : String) (doc : Document)
    (h : (detectedBuilders (finalFlags url doc)).isEmpty = false) :
    classify url doc =
      { compatible := false, frameworks := none,
        error := some ("Framework not supported: " ++
          joinComma (detectedBuilders (finalFlags url doc))) } := by
  unfold classify
  simp [h]

theorem classify_ok_branch (url : String) (doc : Document)
    (h : (detectedBuilders (finalFlags url doc)).isEmpty = true) :
    classify url doc =
      (if (detectedAll (finalFlags url doc)).isEmpty then
        { compatible := true, frameworks := some ["Unknown"], error := none }
      else
        { compatible := true, frameworks := some (detectedAll (finalFlags url doc)),
          error := none }) := by
  unfold classify
  simp [h]

theorem isEmpty_false_of_mem {α : Type} {a : α} {l : List α} (h : a ∈ l) :
    l.isEmpty = false := by
  cases l with
  | nil => cases h
  | cons x xs => rfl

theorem mem_detectedBuilders_wix (fl : Flags) (h : fl.wix = true) :
    "Wix" ∈ detectedBuilders fl := by
  rw [detectedBuilders_eq]
  simp [h]

theorem mem_detectedBuilders_squarespace (fl : Flags) (h : fl.squarespace = true) :
    "Squarespace" ∈ detectedBuilders fl := by
  rw [detectedBuilders_eq]
  simp [h]

theorem mem_detectedBuilders_shopify (fl : Flags) (h : fl.shopify = true) :
    "Shopify" ∈ detectedBuilders fl := by
  rw [detectedBuilders_eq]
  simp [h]

theorem mem_detectedBuilders_webflow (fl : Flags) (h : fl.webflow = true) :
    "Webflow" ∈ detectedBuilders fl := by
  rw [detectedBuilders_eq]
  simp [h]

theorem detectedBuilders_nil (url : String) (doc : Document)
    (hb : builderSignature url (lowerStr doc.pageSource) = false) :
    detectedBuilders (finalFlags url doc) = [] := by
  have hf := finalFlags_builders url doc
  have hbl := detectedBuilders_eq (finalFlags url doc)
  unfold builderSignature at hb
  simp only [Bool.or_eq_false_iff] at hb
  rw [hf.2.1, hf.2.2.1, hf.2.2.2.1, hf.2.2.2.2] at hbl
  rw [hb.1.1.1, hb.1.1.2, hb.1.2, hb.2] at hbl
  simpa using hbl

theorem metaStep_id (fl : Flags) (c : String) (h : metaMatches c = false) :
    metaStep fl c = fl := by
  unfold metaMatches at h
  simp only [Bool.or_eq_false_iff] at h
  unfold metaStep
  simp [h.1.1, h.1.2, h.2]

theorem foldl_metaStep_id (l : List String) (fl : Flags)
    (h : l.all (fun c => !(metaMatches c)) = true) : l.foldl metaStep fl = fl := by
  induction l generalizing fl with
  | nil => rfl
  | cons c cs ih =>
    simp only [List.all_cons, Bool.and_eq_true] at h
    rw [List.foldl_cons, metaStep_id fl c (by simpa using h.1)]
    exact ih fl h.2

theorem srcMatches_eq : srcMatches = metaMatches := rfl

/-- Claim C3: a document with no evidence at all — no matching meta-tag
content, no matching script src, no marker token in the markup, and no
builder substring in the URL — classifies as `compatible=true` with
frameworks exactly `["Unknown"]`. -/
theorem claim_C3 (url : String) (doc : Document) (h : noEvidence url doc = true) :
    classify url doc =
      { compatible := true, frameworks := some ["Unknown"], error := none } := by
  unfold noEvidence at h
  simp only [Bool.and_eq_true] at h
  obtain ⟨⟨⟨hall1, hall2⟩, hmark⟩, hbuild⟩ := h
  rw [srcMatches_eq] at hall2
  have hfinal : finalFlags url doc = initFlags := by
    unfold finalFlags
    rw [scriptStep_eq, foldl_metaStep_id _ _ hall1, foldl_metaStep_id _ _ hall2,
      markupChecks_eq]
    unfold markerMatches at hmark
    unfold builderSignature at hbuild
    simp only [Bool.not_eq_true', Bool.or_eq_false_iff] at hmark hbuild
    rw [hmark.1.1.1.1, hmark.1.1.1.2, hmark.1.1.2, hmark.1.2, hmark.2,
      hbuild.1.1.1, hbuild.1.1.2, hbuild.1.2, hbuild.2]
    rfl
  have hb2 : (detectedBuilders (finalFlags url doc)).isEmpty = true := by
    rw [hfinal]
    rfl
  rw [classify_ok_branch url doc hb2, hfinal]
  decide

/-- Claim C3 witness: the empty document has no evidence and classifies
as `compatible=true, frameworks=["Unknown"]`. -/
theorem claim_C3_witness :
    classify "https://example.com" emptyDoc =
      { compatible := true, frameworks := some ["Unknown"], error := none } :=
  claim_C3 "https://example.com" emptyDoc (by decide)

/-- Claim C4: a URL containing `wixsite.com` with an otherwise empty
document classifies as `compatible=false` with an error mentioning `Wix`
— URL-substring builder evidence alone suffices. -/
theorem claim_C4 (url : String) (h : strContains url "wixsite.com" = true) :
    detect_framework (fun _ => FetchOutcome.success emptyDoc) url =
      { compatible := false, frameworks := none,
        error := some "Framework not supported: Wix" } ∧
    strContains "Framework not supported: Wix" "Wix" = true := by
  constructor
  · show classify (normalizeUrl url) emptyDoc = _
    have hw : strContains (normalizeUrl url) "wixsite.com" = true := by
      unfold normalizeUrl
      split
      · exact h
      · exact strContains_append_right _ _ _ h
    have hwc : wixCond (normalizeUrl url) (lowerStr emptyDoc.pageSource) = true := by
      unfold wixCond
      simp [hw]
    have hf := finalFlags_builders (normalizeUrl url) emptyDoc
    have hbl := detectedBuilders_eq (finalFlags (normalizeUrl url) emptyDoc)
    rw [hf.2.1, hf.2.2.1, hf.2.2.2.1, hf.2.2.2.2] at hbl
    have h2 : squarespaceCond (lowerStr emptyDoc.pageSource) = false := by decide
    have h3 : shopifyCond (lowerStr emptyDoc.pageSource) = false := by decide
    have h4 : webflowCond (lowerStr emptyDoc.pageSource) = false := by decide
    rw [hwc, h2, h3, h4] at hbl
    simp only [if_true, if_false, List.append_nil, List.nil_append] at hbl
    have hne : (detectedBuilders (finalFlags (normalizeUrl url) emptyDoc)).isEmpty = false := by
      rw [hbl]
      rfl
    rw [classify_builder_branch (normalizeUrl url) emptyDoc hne, hbl]
    rfl
  · decide

/-- Claim C4 witness: the URL `mysite.wixsite.com` with the empty document. -/
theorem claim_C4_witness :
    detect_framework (fun _ => FetchOutcome.success emptyDoc) "mysite.wixsite.com" =
      { compatible := false, frameworks := none,
        error := some "Framework not supported: Wix" } ∧
    strContains "Framework not supported: Wix" "Wix" = true :=
  claim_C4 "mysite.wixsite.com" (by decide)

/-- Claim C5: whenever the builder-detection set is non-empty, the error
string is exactly `Framework not supported: ` followed by the detected
builder names joined by `, `, and the list of names is a sublist of the
canonical order Wix, Squarespace, Shopify, Webflow. -/
theorem claim_C5 (url : String) (doc : Document)
    (h : detectedBuilders (finalFlags url doc) ≠ []) :
    (classify url doc).error =
      some ("Framework not supported: " ++
        joinComma (detectedBuilders (finalFlags url doc))) ∧
    (classify url doc).compatible = false ∧
    List.Sublist (detectedBuilders (finalFlags url doc)) siteBuilders := by
  have hne : (detectedBuilders (finalFlags url doc)).isEmpty = false := by
    cases hl : detectedBuilders (finalFlags url doc) with
    | nil => exact absurd hl h
    | cons x xs => rfl
  rw [classify_builder_branch url doc hne]
  refine ⟨rfl, rfl, ?_⟩
  unfold detectedBuilders
  exact List.filter_sublist _

/-- Claim C5 witness: a document matching Webflow and Shopify produces
the error in canonical (insertion) order: Shopify before Webflow. -/
theorem claim_C5_witness :
    (classify "https://x.com" builderPairDoc).error =
      some ("Framework not supported: " ++
        joinComma (detectedBuilders (finalFlags "https://x.com" builderPairDoc))) ∧
    (classify "https://x.com" builderPairDoc).compatible = false ∧
    List.Sublist (detectedBuilders (finalFlags "https://x.com" builderPairDoc)) siteBuilders :=
  claim_C5 "https://x.com" builderPairDoc (by decide)

/-- Claim C10: classification is a pure function of the URL and the
meta contents, script srcs and raw markup of the document: equal inputs give
identical results. -/
theorem claim_C10 (url₁ url₂ : String) (d₁ d₂ : Document)
    (hu : url₁ = url₂) (hm : d₁.metaContents = d₂.metaContents)
    (hs : d₁.scriptSrcs = d₂.scriptSrcs) (hp : d₁.pageSource = d₂.pageSource) :
    classify url₁ d₁ = classify url₂ d₂ := by
  rcases d₁ with ⟨m₁, s₁, p₁⟩
  rcases d₂ with ⟨m₂, s₂, p₂⟩
  simp only at hm hs hp
  subst hu
  subst hm
  subst hs
  subst hp
  rfl

/-- Claim C10 witness: two identical calls on the empty document. -/
theorem claim_C10_witness :
    classify "https://example.com" emptyDoc = classify "https://example.com" emptyDoc :=
  claim_C10 "https://example.com" "https://example.com" emptyDoc emptyDoc rfl rfl rfl rfl

/-- Claim C1: whenever any site-builder signature matches (on any
document, hence regardless of how many framework signatures also match),
the result is `compatible=false` with no frameworks and an error message
that mentions every matched builder. -/
theorem claim_C1 (url : String) (doc : Document)
    (h : builderSignature url (lowerStr doc.pageSource) = true) :
    (classify url doc).compatible = false ∧
    (classify url doc).frameworks = none ∧
    ∃ msg, (classify url doc).error = some msg ∧
      (wixCond url (lowerStr doc.pageSource) = true → strContains msg "Wix" = true) ∧
      (squarespaceCond (lowerStr doc.pageSource) = true →
        strContains msg "Squarespace" = true) ∧
      (shopifyCond (lowerStr doc.pageSource) = true → strContains msg "Shopify" = true) ∧
      (webflowCond (lowerStr doc.pageSource) = true → strContains msg "Webflow" = true) := by
  have hf := finalFlags_builders url doc
  have hmemW : wixCond url (lowerStr doc.pageSource) = true →
      "Wix" ∈ detectedBuilders (finalFlags url doc) := fun hw =>
    mem_detectedBuilders_wix _ (hf.2.1.trans hw)
  have hmemSq : squarespaceCond (lowerStr doc.pageSource) = true →
      "Squarespace" ∈ detectedBuilders (finalFlags url doc) := fun hq =>
    mem_detectedBuilders_squarespace _ (hf.2.2.1.trans hq)
  have hmemSh : shopifyCond (lowerStr doc.pageSource) = true →
      "Shopify" ∈ detectedBuilders (finalFlags url doc) := fun hh =>
    mem_detectedBuilders_shopify _ (hf.2.2.2.1.trans hh)
  have hmemWf : webflowCond (lowerStr doc.pageSource) = true →
      "Webflow" ∈ detectedBuilders (finalFlags url doc) := fun hw =>
    mem_detectedBuilders_webflow _ (hf.2.2.2.2.trans hw)
  have hne : (detectedBuilders (finalFlags url doc)).isEmpty = false := by
    unfold builderSignature at h
    simp only [Bool.or_eq_true] at h
    rcases h with ((hw | hsq) | hsh) | hwf
    · exact isEmpty_false_of_mem (hmemW hw)
    · exact isEmpty_false_of_mem (hmemSq hsq)
    · exact isEmpty_false_of_mem (hmemSh hsh)
    · exact isEmpty_false_of_mem (hmemWf hwf)
  rw [classify_builder_branch url doc hne]
  refine ⟨rfl, rfl, _, rfl, ?_, ?_, ?_, ?_⟩
  · intro hw
    exact strContains_append_right _ _ _ (strContains_joinComma _ _ (hmemW hw))
  · intro hq
    exact strContains_append_right _ _ _ (strContains_joinComma _ _ (hmemSq hq))
  · intro hh
    exact strContains_append_right _ _ _ (strContains_joinComma _ _ (hmemSh hh))
  · intro hw
    exact strContains_append_right _ _ _ (strContains_joinComma _ _ (hmemWf hw))

/-- Claim C1 witness: a document with React meta, script and markup
evidence plus `cdn.shopify.com` markup evidence: the builder wins. -/
theorem claim_C1_witness :
    (classify "https://x.com" shopifyReactDoc).compatible = false ∧
    (classify "https://x.com" shopifyReactDoc).frameworks = none ∧
    ∃ msg, (classify "https://x.com" shopifyReactDoc).error = some msg ∧
      (wixCond "https://x.com" (lowerStr shopifyReactDoc.pageSource) = true →
        strContains msg "Wix" = true) ∧
      (squarespaceCond (lowerStr shopifyReactDoc.pageSource) = true →
        strContains msg "Squarespace" = true) ∧
      (shopifyCond (lowerStr shopifyReactDoc.pageSource) = true →
        strContains msg "Shopify" = true) ∧
      (webflowCond (lowerStr shopifyReactDoc.pageSource) = true →
        strContains msg "Webflow" = true) :=
  claim_C1 "https://x.com" shopifyReactDoc (by decide)

/-- Claim C2 counterexample: for the document consisting of exactly one
meta tag with content `react angular` and nothing else (its raw markup is
the serialization of that tag, which the code scans as `page_source`),
the final frameworks list is `["React", "Angular"]` — Angular IS present,
because the independent markup check matches `angular` inside the
serialized tag. -/
theorem claim_C2_counterexample :
    reactAngularDoc.metaContents = ["react angular"] ∧
    reactAngularDoc.scriptSrcs = [] ∧
    (classify "https://example.com" reactAngularDoc).frameworks =
      some ["React", "Angular"] ∧
    "Angular" ∈ ["React", "Angular"] := by
  decide

/-- Claim C2 (amended): the meta-tag scan is first-match-wins — folding
the meta rule over the single tag `react angular` sets the React flag and
leaves the Angular flag false — but the raw markup, which serializes the
tag and hence contains `angular`, independently registers Angular, so the
final frameworks list contains both React and Angular (assuming no
builder evidence). -/
theorem claim_C2_amended (url : String) (doc : Document)
    (hm : doc.metaContents = ["react angular"]) (_hs : doc.scriptSrcs = [])
    (hang : strContains (lowerStr doc.pageSource) "angular" = true)
    (hb : builderSignature url (lowerStr doc.pageSource) = false) :
    (doc.metaContents.foldl metaStep initFlags).react = true ∧
    (doc.metaContents.foldl metaStep initFlags).angular = false ∧
    (classify url doc).compatible = true ∧
    ∃ fws, (classify url doc).frameworks = some fws ∧
      "React" ∈ fws ∧ "Angular" ∈ fws := by
  have hr : (doc.metaContents.foldl metaStep initFlags).react = true := by
    rw [hm]
    decide
  have ha : (doc.metaContents.foldl metaStep initFlags).angular = false := by
    rw [hm]
    decide
  have hflr : (finalFlags url doc).react = true := finalFlags_react_mono url doc hr
  have hfla : (finalFlags url doc).angular = true :=
    finalFlags_angular_marker url doc (by simp [hang])
  have hnil := detectedBuilders_nil url doc hb
  have hbe : (detectedBuilders (finalFlags url doc)).isEmpty = true := by
    rw [hnil]
    rfl
  have hmemR : "React" ∈ detectedAll (finalFlags url doc) := by
    rw [detectedAll_eq]
    simp [hflr]
  have hmemA : "Angular" ∈ detectedAll (finalFlags url doc) := by
    rw [detectedAll_eq]
    simp [hfla]
  have hda : (detectedAll (finalFlags url doc)).isEmpty = false :=
    isEmpty_false_of_mem hmemR
  rw [classify_ok_branch url doc hbe]
  rw [hda]
  exact ⟨hr, ha, rfl, detectedAll (finalFlags url doc), rfl, hmemR, hmemA⟩

/-- Claim C2 amended witness: the single-meta-tag document. -/
theorem claim_C2_amended_witness :
    (reactAngularDoc.metaContents.foldl metaStep initFlags).react = true ∧
    (reactAngularDoc.metaContents.foldl metaStep initFlags).angular = false ∧
    (classify "https://example.com" reactAngularDoc).compatible = true ∧
    ∃ fws, (classify "https://example.com" reactAngularDoc).frameworks = some fws ∧
      "React" ∈ fws ∧ "Angular" ∈ fws :=
  claim_C2_amended "https://example.com" reactAngularDoc rfl rfl (by decide) (by decide)

/-- Claim C8: a document whose markup contains `data-reactroot` and which
has no builder evidence in markup or URL classifies as `compatible=true`
with `React` among the returned frameworks. -/
theorem claim_C8 (url : String) (doc : Document)
    (hmark : strContains (lowerStr doc.pageSource) "data-reactroot" = true)
    (hb : builderSignature url (lowerStr doc.pageSource) = false) :
    (classify url doc).compatible = true ∧
    ∃ fws, (classify url doc).frameworks = some fws ∧ "React" ∈ fws := by
  have hflr : (finalFlags url doc).react = true :=
    finalFlags_react_marker url doc (by simp [hmark])
  have hnil := detectedBuilders_nil url doc hb
  have hbe : (detectedBuilders (finalFlags url doc)).isEmpty = true := by
    rw [hnil]
    rfl
  have hmemR : "React" ∈ detectedAll (finalFlags url doc) := by
    rw [detectedAll_eq]
    simp [hflr]
  have hda : (detectedAll (finalFlags url doc)).isEmpty = false :=
    isEmpty_false_of_mem hmemR
  rw [classify_ok_branch url doc hbe]
  rw [hda]
  exact ⟨rfl, detectedAll (finalFlags url doc), rfl, hmemR⟩

/-- Claim C8 witness: a markup-only React document. -/
theorem claim_C8_witness :
    (classify "https://example.com" reactDoc).compatible = true ∧
    ∃ fws, (classify "https://example.com" reactDoc).frameworks = some fws ∧
      "React" ∈ fws :=
  claim_C8 "https://example.com" reactDoc (by decide) (by decide)

/-- Claim C6: when the fetch of the requested URL times out, the handler
response is exactly `compatible=false` with the timeout error text, and
it is delivered with transport status 200. -/
theorem claim_C6 (s : String) (h : (trimStr s == "") = false) :
    check_site (detect_framework (fun _ => FetchOutcome.timeout))
        (some [("url", JVal.jstr s)]) =
      ({ compatible := false, frameworks := none,
         error := some "Request timed out. Please check the URL and try again." }, 200) := by
  unfold check_site lookupKey
  simp [h]
  rfl

/-- Claim C6 witness: the request `{"url": "example.com"}` with a
timed-out fetch. -/
theorem claim_C6_witness :
    check_site (detect_framework (fun _ => FetchOutcome.timeout))
        (some [("url", JVal.jstr "example.com")]) =
      ({ compatible := false, frameworks := none,
         error := some "Request timed out. Please check the URL and try again." }, 200) :=
  claim_C6 "example.com" (by decide)

/-- Claim C7: on malformed input — no body, empty object, missing `url`
key, non-string `url`, or a `url` that is empty after trimming — the
handler returns a 400 validation error of shape
`compatible=false, error=msg`, and the result does not depend on the
fetch/classification pipeline (it is never invoked). -/
theorem check_site_cons (detect : String → DetectResult) (p : String × JVal)
    (rest : List (String × JVal)) :
    check_site detect (some (p :: rest)) =
      (match lookupKey (p :: rest) "url" with
      | none =>
          ({ compatible := false, frameworks := none, error := some "URL is required" }, 400)
      | some (JVal.jstr s) =>
          if trimStr s == "" then
            ({ compatible := false, frameworks := none,
               error := some "URL cannot be empty" }, 400)
          else
            (detect (trimStr s), 200)
      | some _ =>
          ({ compatible := false, frameworks := none,
             error := some "URL must be a string" }, 400)) := rfl

theorem check_site_url_str (detect : String → DetectResult) (p : String × JVal)
    (rest : List (String × JVal)) (s : String)
    (hk : lookupKey (p :: rest) "url" = some (JVal.jstr s)) :
    check_site detect (some (p :: rest)) =
      (if trimStr s == "" then
        ({ compatible := false, frameworks := none,
           error := some "URL cannot be empty" }, 400)
      else
        (detect (trimStr s), 200)) := by
  rw [check_site_cons, hk]

theorem claim_C7 (detect detect' : String → DetectResult)
    (body : Option (List (String × JVal))) (h : malformedBody body = true) :
    (check_site detect body).2 = 400 ∧
    (check_site detect body).1.compatible = false ∧
    (check_site detect body).1.frameworks = none ∧
    (∃ msg, (check_site detect body).1.error = some msg) ∧
    check_site detect body = check_site detect' body := by
  cases body with
  | none => exact ⟨rfl, rfl, rfl, ⟨_, rfl⟩, rfl⟩
  | some data =>
    cases data with
    | nil => exact ⟨rfl, rfl, rfl, ⟨_, rfl⟩, rfl⟩
    | cons p rest =>
      cases hk : lookupKey (p :: rest) "url" with
      | none =>
        rw [check_site_cons detect p rest, check_site_cons detect' p rest, hk]
        exact ⟨rfl, rfl, rfl, ⟨_, rfl⟩, rfl⟩
      | some v =>
        cases v with
        | jstr s =>
          have h' : (trimStr s == "") = true := by
            simp only [malformedBody] at h
            rw [hk] at h
            simpa using h
          rw [check_site_url_str detect p rest s hk, check_site_url_str detect' p rest s hk]
          simp only [h']
          exact ⟨rfl, rfl, rfl, ⟨_, rfl⟩, rfl⟩
        | jnum n =>
          rw [check_site_cons detect p rest, check_site_cons detect' p rest, hk]
          exact ⟨rfl, rfl, rfl, ⟨_, rfl⟩, rfl⟩
        | jbool b =>
          rw [check_site_cons detect p rest, check_site_cons detect' p rest, hk]
          exact ⟨rfl, rfl, rfl, ⟨_, rfl⟩, rfl⟩
        | jnull =>
          rw [check_site_cons detect p rest, check_site_cons detect' p rest, hk]
          exact ⟨rfl, rfl, rfl, ⟨_, rfl⟩, rfl⟩

/-- Claim C7 witness: a request with no JSON body, against two distinct
pipelines. -/
theorem claim_C7_witness :
    (check_site okStub none).2 = 400 ∧
    (check_site okStub none).1.compatible = false ∧
    (check_site okStub none).1.frameworks = none ∧
    (∃ msg, (check_site okStub none).1.error = some msg) ∧
    check_site okStub none = check_site errStub none :=
  claim_C7 okStub errStub none (by decide)

theorem detectedAll_props (fl : Flags) (hv : fl.vue = false) (hw : fl.wix = false)
    (hsq : fl.squarespace = false) (hsh : fl.shopify = false) (hwf : fl.webflow = false) :
    List.Sublist (detectedAll fl) ["React", "Angular", "Next.js"] ∧
    "Vue" ∉ detectedAll fl ∧ "Wix" ∉ detectedAll fl ∧ "Squarespace" ∉ detectedAll fl ∧
    "Shopify" ∉ detectedAll fl ∧ "Webflow" ∉ detectedAll fl := by
  rcases fl with ⟨r, v, a, n, w, sq, sh, wf⟩
  have hv2 : v = false := hv
  have hw2 : w = false := hw
  have hsq2 : sq = false := hsq
  have hsh2 : sh = false := hsh
  have hwf2 : wf = false := hwf
  subst hv2
  subst hw2
  subst hsq2
  subst hsh2
  subst hwf2
  cases r <;> cases a <;> cases n <;> decide

/-- Claim C9: whenever the classifier returns `compatible=true`, the
frameworks list is non-empty and is either exactly `["Unknown"]` or a
subsequence of the canonical order React, Angular, Next.js; Vue and the
four site-builder names never appear in it. -/
theorem claim_C9 (url : String) (doc : Document)
    (h : (classify url doc).compatible = true) :
    ∃ fws, (classify url doc).frameworks = some fws ∧ fws ≠ [] ∧
      (fws = ["Unknown"] ∨ List.Sublist fws ["React", "Angular", "Next.js"]) ∧
      "Vue" ∉ fws ∧ "Wix" ∉ fws ∧ "Squarespace" ∉ fws ∧
      "Shopify" ∉ fws ∧ "Webflow" ∉ fws := by
  cases hne : (detectedBuilders (finalFlags url doc)).isEmpty with
  | false =>
    rw [classify_builder_branch url doc hne] at h
    exact Bool.noConfusion h
  | true =>
    have hnil : detectedBuilders (finalFlags url doc) = [] := by
      cases hl : detectedBuilders (finalFlags url doc) with
      | nil => rfl
      | cons x xs =>
        rw [hl] at hne
        exact Bool.noConfusion hne
    have hf := finalFlags_builders url doc
    have hvue := hf.1
    have hw : (finalFlags url doc).wix = false := by
      cases hx : (finalFlags url doc).wix
      · rfl
      · have hm := mem_detectedBuilders_wix _ hx
        rw [hnil] at hm
        cases hm
    have hsq : (finalFlags url doc).squarespace = false := by
      cases hx : (finalFlags url doc).squarespace
      · rfl
      · have hm := mem_detectedBuilders_squarespace _ hx
        rw [hnil] at hm
        cases hm
    have hsh : (finalFlags url doc).shopify = false := by
      cases hx : (finalFlags url doc).shopify
      · rfl
      · have hm := mem_detectedBuilders_shopify _ hx
        rw [hnil] at hm
        cases hm
    have hwf : (finalFlags url doc).webflow = false := by
      cases hx : (finalFlags url doc).webflow
      · rfl
      · have hm := mem_detectedBuilders_webflow _ hx
        rw [hnil] at hm
        cases hm
    obtain ⟨hsub, hv', hw', hsq', hsh', hwf'⟩ :=
      detectedAll_props (finalFlags url doc) hvue hw hsq hsh hwf
    rw [classify_ok_branch url doc hne]
    cases hda : (detectedAll (finalFlags url doc)).isEmpty with
    | true =>
      exact ⟨["Unknown"], rfl, by decide, Or.inl rfl,
        by decide, by decide, by decide, by decide, by decide⟩
    | false =>
      refine ⟨detectedAll (finalFlags url doc), rfl, ?_, Or.inr hsub,
        hv', hw', hsq', hsh', hwf'⟩
      intro hc
      rw [hc] at hda
      exact Bool.noConfusion hda

/-- Claim C9 witness: the empty document is compatible and its frameworks
list is `["Unknown"]`. -/
theorem claim_C9_witness :
    ∃ fws, (classify "https://example.com" emptyDoc).frameworks = some fws ∧ fws ≠ [] ∧
      (fws = ["Unknown"] ∨ List.Sublist fws ["React", "Angular", "Next.js"]) ∧
      "Vue" ∉ fws ∧ "Wix" ∉ fws ∧ "Squarespace" ∉ fws ∧
      "Shopify" ∉ fws ∧ "Webflow" ∉ fws :=
  claim_C9 "https://example.com" emptyDoc (by decide)

end Cliseo
